import Mathlib

/-!
Verification of the duplex channel protocol (poc2/duplex/ssh.go) against its
natural-language specification.

Modelling conventions:
- Go byte strings (`[]byte`, and Go `string` values that are marshalled onto
  the wire) are `List Nat`, one element per byte.
- The byte stream seen by successive `Read` calls on an SSH channel is a
  `List (List Nat)`: one inner list per `Read` call's delivery, since a Go
  `Read` may return fewer bytes than the buffer size.
- Fallible operations return `Option`.
- Stateful pieces (peer registry, intake queue, the client request loop, the
  accept loop's shared decode variable) are explicit state-passing functions.
-/

/-- Big-endian 4-byte encoding of the low 32 bits of `n`: the bytes
`byte(n>>24), byte(n>>16), byte(n>>8), byte(n)` built by `WriteFrame`
(applied there to `uint32(len(frame))`, i.e. to `len mod 2^32`). -/
def uint32be (n : Nat) : List Nat :=
  [n / 2 ^ 24 % 256, n / 2 ^ 16 % 256, n / 2 ^ 8 % 256, n % 256]

/-- `binary.BigEndian.Uint32` read of a 4-byte buffer. -/
def be32 : List Nat → Nat
  | [a, b, c, d] => a % 256 * 2 ^ 24 + b % 256 * 2 ^ 16 + c % 256 * 2 ^ 8 + d % 256
  | _ => 0

/-- `ssh_channel.WriteFrame`: the bytes put on the wire — the 4-byte
big-endian form of `uint32(len(frame))` followed by the payload, written as
one buffer (`Write` errors pass through and do not alter the bytes). -/
def WriteFrame (frame : List Nat) : List Nat :=
  uint32be (frame.length % 2 ^ 32) ++ frame

/-- One Go `Read` call into a zero-initialised buffer of size `n`
(`make([]byte, n)`): delivers up to `n` bytes from the first pending chunk,
returning the whole buffer (delivered bytes, then the untouched zero bytes)
and the remaining stream.  `none` models the error returned when data is
requested and the stream is exhausted; a zero-length read returns at once. -/
def goRead (n : Nat) (chunks : List (List Nat)) : Option (List Nat × List (List Nat)) :=
  if n = 0 then some ([], chunks)
  else
    match chunks with
    | [] => none
    | c :: cs =>
      let d := c.take n
      some (d ++ List.replicate (n - d.length) 0,
        if (c.drop n).isEmpty then cs else c.drop n :: cs)

/-- `ssh_channel.ReadFrame`: one `Read` into a 4-byte buffer (the byte count
returned by `Read` is discarded, exactly as in the source), then
`binary.BigEndian.Uint32` of that buffer, then one `Read` into a buffer of
the resulting length, which is returned together with the remaining
stream. -/
def ReadFrame (chunks : List (List Nat)) : Option (List Nat × List (List Nat)) :=
  match goRead 4 chunks with
  | none => none
  | some (hdr, rest) =>
    match goRead (be32 hdr) rest with
    | none => none
    | some (frame, rest2) => some (frame, rest2)

/-!
### SSH structured encoding

`ssh.Marshal` / `ssh.Unmarshal` live in the external `crypto/ssh` package,
outside this repository.  Modelled from the spec: §6 requires the channel-open
metadata record and the greeting payload to be encoded "with the transport's
native structured-encoding convention (must be symmetric encode/decode; field
order matters for wire compatibility)" — in SSH, each string field is a 4-byte
big-endian length followed by the bytes, and a sequence of strings is one
name-list: a single length-prefixed blob holding the strings joined by commas.
-/

/-- Modelled from the spec: SSH wire form of one string field — a 4-byte
big-endian length prefix, then the bytes. -/
def sshString (s : List Nat) : List Nat :=
  uint32be (s.length % 2 ^ 32) ++ s

/-- Modelled from the spec: parse one length-prefixed string field, returning
the field and the remaining bytes; `none` on truncated input. -/
def parseSshString (d : List Nat) : Option (List Nat × List Nat) :=
  if 4 ≤ d.length then
    let L := be32 (d.take 4)
    let rest := d.drop 4
    if L ≤ rest.length then some (rest.take L, rest.drop L) else none
  else none

/-- `ssh.Marshal(&ssh_greetingPayload{name})`: the single `Name` field. -/
def marshalGreeting (name : List Nat) : List Nat :=
  sshString name

/-- Modelled from the spec: `ssh.Unmarshal` into `ssh_greetingPayload`,
symmetric to `marshalGreeting`; fails on truncated or trailing data. -/
def unmarshalGreeting (d : List Nat) : Option (List Nat) :=
  match parseSshString d with
  | some (s, []) => some s
  | _ => none

/-- The `ssh_channelData` struct: channel-open metadata
`Service string; Headers []string`. -/
structure ssh_channelData where
  Service : List Nat
  Headers : List (List Nat)
deriving DecidableEq, Repr

/-- Modelled from the spec: the body of an SSH name-list — the strings joined
by commas (byte 44). -/
def joinComma (hs : List (List Nat)) : List Nat :=
  List.intercalate [44] hs

/-- Split a byte string at commas (byte 44). -/
def splitComma : List Nat → List (List Nat)
  | [] => [[]]
  | x :: rest =>
    match splitComma rest with
    | [] => [[x]]
    | h :: t => if x = 44 then [] :: h :: t else (x :: h) :: t

/-- Modelled from the spec: decode an SSH name-list body — the empty body is
the empty sequence, anything else splits at commas. -/
def parseNameList (b : List Nat) : List (List Nat) :=
  if b = [] then [] else splitComma b

/-- `ssh.Marshal(meta)` for the `ssh_channelData` record built by `Open`:
the service string field, then the headers name-list field, in order. -/
def marshalChannelData (m : ssh_channelData) : List Nat :=
  sshString m.Service ++ sshString (joinComma m.Headers)

/-- Modelled from the spec: `ssh.Unmarshal` into `ssh_channelData` —
symmetric decode of the two fields, failing on malformed or trailing data. -/
def unmarshalChannelData (d : List Nat) : Option ssh_channelData :=
  match parseSshString d with
  | none => none
  | some (svc, rest) =>
    match parseSshString rest with
    | none => none
    | some (blob, rest2) =>
      if rest2 = [] then some ⟨svc, parseNameList blob⟩ else none

/-!
### The accept loop (`ssh_acceptChannels`)
-/

/-- One inbound `ssh.NewChannel` event: an identifier for the underlying
sub-channel, its declared channel type, its attached metadata bytes
(`ExtraData()`), and whether the transport-level `Accept()` call succeeds. -/
structure NewChanEv where
  chanId : Nat
  chanType : String
  extra : List Nat
  acceptOk : Bool
deriving DecidableEq, Repr

/-- Observable outcome of handling one inbound channel-open: a transport
`Reject` with its reason message, or a push onto the peer's intake queue of a
channel with its metadata. -/
inductive AcceptOutcome where
  | rejected (chanId : Nat) (reason : String)
  | pushed (chanId : Nat) (meta : ssh_channelData)
deriving DecidableEq, Repr

/-- Body of the per-channel goroutine in `ssh_acceptChannels`, run to
completion: `ssh.Unmarshal` the extra data, reject with
`"failed to parse channel data"` on decode failure, reject with
`"empty service"` when the decoded service is empty, otherwise `Accept()` and
push the channel with the decoded metadata onto the intake queue; an
`Accept()` error is only logged (no push, no reject). -/
def duplexOpenStep (nc : NewChanEv) : Option AcceptOutcome :=
  match unmarshalChannelData nc.extra with
  | none => some (.rejected nc.chanId "failed to parse channel data")
  | some m =>
    if m.Service = [] then some (.rejected nc.chanId "empty service")
    else if nc.acceptOk then some (.pushed nc.chanId m) else none

/-- `ssh_acceptChannels` under the run-to-completion schedule (each forked
goroutine finishes before the next event is taken, so the shared `meta`
variable holds that channel's own decode): events whose declared type is not
`"@duplex"` fall through the `switch` with no handling and no reply. -/
def ssh_acceptChannels (chans : List NewChanEv) : List AcceptOutcome :=
  chans.filterMap fun nc => if nc.chanType = "@duplex" then duplexOpenStep nc else none

/-!
### The interleaved accept loop, with the shared `meta` variable

`ssh_acceptChannels` declares `var meta ssh_channelData` once, outside the
loop, and every forked per-channel goroutine decodes into and reads from that
one variable.  The model below keeps each goroutine's program counter and lets
a schedule interleave their instructions.
-/

/-- One forked per-channel goroutine: its channel's `ExtraData` and its
program counter — 0: about to `Unmarshal` into the shared `meta`; 1: about to
check `meta.Service` (rejecting or calling `Accept()`); 2: about to push
`&ssh_channel{ch, meta}`; 3: finished. -/
structure AcceptGoroutine where
  extra : List Nat
  pc : Nat
deriving DecidableEq, Repr

/-- Interleaved state of `ssh_acceptChannels`: the single shared `meta`
variable (zero value `{"", nil}` at loop entry), the forked goroutines, and
the intake-queue contents as (goroutine index, pushed metadata) pairs. -/
structure AcceptLoopState where
  meta : ssh_channelData
  gos : List AcceptGoroutine
  queue : List (Nat × ssh_channelData)
deriving DecidableEq, Repr

/-- One scheduler step: run the next instruction of goroutine `g`.  Decoding
writes the shared `meta`; the service check and the push read it. -/
def acceptLoopStep (s : AcceptLoopState) (g : Nat) : AcceptLoopState :=
  match s.gos.get? g with
  | none => s
  | some go =>
    if go.pc = 0 then
      match unmarshalChannelData go.extra with
      | none => ⟨s.meta, s.gos.set g ⟨go.extra, 3⟩, s.queue⟩
      | some m => ⟨m, s.gos.set g ⟨go.extra, 1⟩, s.queue⟩
    else if go.pc = 1 then
      if s.meta.Service = [] then ⟨s.meta, s.gos.set g ⟨go.extra, 3⟩, s.queue⟩
      else ⟨s.meta, s.gos.set g ⟨go.extra, 2⟩, s.queue⟩
    else if go.pc = 2 then
      ⟨s.meta, s.gos.set g ⟨go.extra, 3⟩, s.queue ++ [(g, s.meta)]⟩
    else s

/-- Run the interleaved accept loop under a schedule. -/
def acceptLoopRun (sched : List Nat) (s : AcceptLoopState) : AcceptLoopState :=
  sched.foldl acceptLoopStep s

/-- Two concurrent `@duplex` opens with distinct services `[97]` and `[98]`,
both not yet started, over an empty queue. -/
def twoOpensInit : AcceptLoopState :=
  ⟨⟨[], []⟩,
    [⟨marshalChannelData ⟨[97], []⟩, 0⟩, ⟨marshalChannelData ⟨[98], []⟩, 0⟩],
    []⟩

/-!
### Server side: `ssh_handleConn` and the peer registry
-/

/-- Entry stored in the peer registry by `ssh_handleConn`: the
`network://address` form of the remote address and the remote name
(`sshConn.User()`). -/
structure ConnEntry where
  addr : String
  name : String
deriving DecidableEq, Repr

/-- Modelled from the spec: the per-process `Peer` value the inspected file
mutates but does not define — §3: a registry of live connections keyed by
remote address string, and an unbounded intake queue of inbound channels
(`incomingCh`), here the pushed (channel id, metadata) pairs in arrival
order. -/
structure PeerState where
  conns : List (String × ConnEntry)
  incoming : List (Nat × ssh_channelData)
deriving DecidableEq, Repr

/-- Result of the `ssh.NewServerConn` handshake: failure, or the connection
metadata (remote network, remote address string, authenticated user name). -/
inductive HsResult where
  | failed
  | ok (network addrStr user : String)
deriving DecidableEq, Repr

/-- The pushes `ssh_acceptChannels` performs on `peer.incomingCh`. -/
def pushedChannels (chans : List NewChanEv) : List (Nat × ssh_channelData) :=
  (ssh_acceptChannels chans).filterMap fun o =>
    match o with
    | .pushed i m => some (i, m)
    | _ => none

/-- `ssh_handleConn`: on handshake failure, return (the deferred close tears
the raw connection down, the registry is untouched).  On success, first
register the connection in the peer registry under the remote address, then
send the `@duplex-greeting` request; if the send errs or the acknowledgment
is negative, return — the deferred close tears the connection down but the
registry entry made before the greeting is not removed.  Otherwise service
inbound channel opens, the pushes landing in the peer's intake queue. -/
def ssh_handleConn (hs : HsResult) (greetSendErr greetAck : Bool)
    (chans : List NewChanEv) (peer : PeerState) : PeerState :=
  match hs with
  | .failed => peer
  | .ok network addrStr user =>
    let peer1 : PeerState :=
      ⟨(addrStr, ⟨network ++ "://" ++ addrStr, user⟩) :: peer.conns, peer.incoming⟩
    if greetSendErr || !greetAck then peer1
    else ⟨peer1.conns, peer1.incoming ++ pushedChannels chans⟩

/-!
### Client side: `newPeerConnection_ssh` and its request goroutine
-/

/-- One out-of-band request seen on the client connection's request stream:
an identifier, the request name (`r.Type`), and the payload bytes. -/
structure OobRequest where
  reqId : Nat
  reqType : String
  payload : List Nat
deriving DecidableEq, Repr

/-- The greeting request the accepting side sends:
`SendRequest("@duplex-greeting", true, ssh.Marshal(&ssh_greetingPayload{peer.GetOption(OptName)}))`. -/
def serverGreetingRequest (reqId : Nat) (name : List Nat) : OobRequest :=
  ⟨reqId, "@duplex-greeting", marshalGreeting name⟩

/-- Whether a request is a `@duplex-greeting` whose payload unmarshals. -/
def validGreeting (r : OobRequest) : Bool :=
  r.reqType = "@duplex-greeting" && (unmarshalGreeting r.payload).isSome

/-- The name the client's request goroutine delivers on `nameCh`: the payload
name of the first `@duplex-greeting` request that unmarshals successfully
(a greeting that fails to decode is skipped with `continue`; other request
types only get a negative reply and deliver nothing). -/
def firstGreetingName : List OobRequest → Option (List Nat)
  | [] => none
  | r :: rs =>
    if r.reqType = "@duplex-greeting" then
      match unmarshalGreeting r.payload with
      | some n => some n
      | none => firstGreetingName rs
    else firstGreetingName rs

/-- `newPeerConnection_ssh` after a successful transport handshake: blocks on
`name := <-nameCh` until a greeting is received (`none`: the dial call never
returns — the source has no timeout), then returns the peer connection with
`addr = network + "://" + addr` and the greeted name. -/
def newPeerConnection_ssh (network addr : String) (reqs : List OobRequest) :
    Option (String × List Nat) :=
  match firstGreetingName reqs with
  | none => none
  | some n => some (network ++ "://" ++ addr, n)

/-- The client request goroutine's replies in order, as (request id, reply)
pairs, given whether a greeting was already delivered.  A `@duplex-greeting`
that fails to decode gets no reply (`continue`); a decodable one is sent on
`nameCh` — blocking the loop forever if the single receiver already took a
name — and then replied `true`; every other request type is replied
`false` and the loop continues. -/
def clientReqLoop : List OobRequest → Bool → List (Nat × Bool)
  | [], _ => []
  | r :: rs, greeted =>
    if r.reqType = "@duplex-greeting" then
      match unmarshalGreeting r.payload with
      | none => clientReqLoop rs greeted
      | some _ =>
        if greeted then [] else (r.reqId, true) :: clientReqLoop rs true
    else (r.reqId, false) :: clientReqLoop rs greeted

/-- Whether the request loop processes this whole request list without
stalling on the unbuffered `nameCh`. -/
def loopReachesEnd : List OobRequest → Bool → Bool
  | [], _ => true
  | r :: rs, greeted =>
    if r.reqType = "@duplex-greeting" then
      match unmarshalGreeting r.payload with
      | none => loopReachesEnd rs greeted
      | some _ => if greeted then false else loopReachesEnd rs true
    else loopReachesEnd rs greeted

/-- The `greeted` flag after the loop processes a request list. -/
def greetedAfter : List OobRequest → Bool → Bool
  | [], g => g
  | r :: rs, g =>
    if r.reqType = "@duplex-greeting" then
      match unmarshalGreeting r.payload with
      | none => greetedAfter rs g
      | some _ => greetedAfter rs true
    else greetedAfter rs g

/-!
### Server authentication (`newPeerListener_ssh`)
-/

/-- Result of the server `PublicKeyCallback`: permissions granted, or a
refusal with an error message. -/
inductive AuthResult where
  | permit
  | deny (msg : String)
deriving DecidableEq, Repr

/-- The `PublicKeyCallback` installed by `newPeerListener_ssh`, applied to
the byte serializations: permit exactly when the offered key's serialization
(`key.Marshal()`) equals the server key's public half
(`pk.PublicKey().Marshal()`) byte for byte — `bytes.Equal` — otherwise the
error `"unauthorized"`. -/
def publicKeyCallback (serverPub offered : List Nat) : AuthResult :=
  if offered = serverPub then .permit else .deny "unauthorized"

theorem uint32be_mod (n : Nat) : uint32be (n % 2 ^ 32) = uint32be n := by
  simp only [uint32be, List.cons.injEq, and_true]
  norm_num
  omega

theorem be32_uint32be (n : Nat) : be32 (uint32be n) = n % 2 ^ 32 := by
  simp only [uint32be, be32]
  norm_num
  omega

theorem uint32be_length (n : Nat) : (uint32be n).length = 4 := by
  simp [uint32be]

theorem goRead_four_wire (L P : List Nat) (hL : L.length = 4) :
    goRead 4 [L ++ P] = some (L, if P.isEmpty then [] else [P]) := by
  unfold goRead
  have ht : (L ++ P).take 4 = L := by
    rw [← hL]
    exact List.take_left L P
  have hd : (L ++ P).drop 4 = P := by
    rw [← hL]
    exact List.drop_left L P
  simp [ht, hd, hL]

theorem goRead_exact (P : List Nat) (hP : P ≠ []) : goRead P.length [P] = some (P, []) := by
  unfold goRead
  have h0 : P.length ≠ 0 := by simpa using hP
  simp [h0, List.take_length, List.drop_length]

theorem goRead_zero (chunks : List (List Nat)) : goRead 0 chunks = some ([], chunks) := by
  simp [goRead]

theorem writeFrame_replicate_pow32 : WriteFrame (List.replicate (2 ^ 32) 0) =
    uint32be 0 ++ List.replicate (2 ^ 32) 0 := by
  rw [WriteFrame]
  rw [List.length_replicate, Nat.mod_self]

theorem replicate_pow32_isEmpty : (List.replicate (2 ^ 32) (0 : Nat)).isEmpty = false := by
  rw [List.isEmpty_eq_false_iff_exists_mem]
  exact ⟨0, List.mem_replicate.mpr ⟨by norm_num, rfl⟩⟩

theorem replicate_pow32_ne_nil : List.replicate (2 ^ 32) (0 : Nat) ≠ [] := by
  intro h
  have := congrArg List.length h
  rw [List.length_replicate, List.length_nil] at this
  norm_num at this

/-- C1 (amended): for every payload `P` of fewer than `2 ^ 32` bytes, the wire
form produced by `WriteFrame` is exactly the 4-byte big-endian encoding of
`P.length` followed by `P`, and `ReadFrame` applied to those wire bytes yields
`P` unchanged with the stream fully consumed. -/
theorem c1_frame_roundtrip (P : List Nat) (h : P.length < 2 ^ 32) :
    WriteFrame P = uint32be P.length ++ P ∧ ReadFrame [WriteFrame P] = some (P, []) := by
  have hw : WriteFrame P = uint32be P.length ++ P := by
    rw [WriteFrame, uint32be_mod]
  refine ⟨hw, ?_⟩
  rw [hw]
  unfold ReadFrame
  rw [goRead_four_wire _ _ (uint32be_length P.length)]
  by_cases hP : P = []
  · subst hP
    simp [be32_uint32be, goRead]
  · have hne : P.isEmpty = false := by
      cases P
      · simp at hP
      · simp
    rw [hne]
    simp only [Bool.false_eq_true, if_false, be32_uint32be, Nat.mod_eq_of_lt h]
    rw [goRead_exact P hP]

/-- C1 witness: the round trip and wire form evaluated at the concrete payload
`[10, 20, 30]`. -/
theorem c1_frame_roundtrip_witness :
    [10, 20, 30].length < 2 ^ 32 ∧
      (WriteFrame [10, 20, 30] = uint32be [10, 20, 30].length ++ [10, 20, 30] ∧
        ReadFrame [WriteFrame [10, 20, 30]] = some ([10, 20, 30], [])) :=
  ⟨by decide, c1_frame_roundtrip [10, 20, 30] (by decide)⟩

/-- C1 counterexample: for the payload of `2 ^ 32` zero bytes the claimed
round trip fails — the length prefix wraps to `0`, so `ReadFrame` on the wire
bytes returns the empty payload, not the original (non-empty) one. -/
theorem c1_large_payload_counterexample :
    ReadFrame [WriteFrame (List.replicate (2 ^ 32) 0)] =
      some ([], [List.replicate (2 ^ 32) 0]) ∧ List.replicate (2 ^ 32) (0 : Nat) ≠ [] := by
  constructor
  · rw [writeFrame_replicate_pow32]
    unfold ReadFrame
    rw [goRead_four_wire _ _ (uint32be_length 0)]
    rw [replicate_pow32_isEmpty]
    simp only [Bool.false_eq_true, if_false, be32_uint32be, Nat.zero_mod, goRead_zero]
  · exact replicate_pow32_ne_nil

/-- C4 (code_bug evaluation): `ReadFrame` does not read exactly 4 bytes and
then exactly the declared number of bytes.  When the transport delivers the
same 8 wire bytes `[0,0,0,4,1,2,3,4]` in one read, the payload `[1,2,3,4]` is
returned; but when the first read delivers only 1 byte, the discarded byte
count makes `ReadFrame` take the zero-padded buffer as length 0 and return an
empty payload, and when the payload read delivers only 2 of 4 bytes the
returned payload is assembled from fewer bytes than the declared length,
padded with zeros. -/
theorem c4_short_read_divergence :
    ReadFrame [[0, 0, 0, 4, 1, 2, 3, 4]] = some ([1, 2, 3, 4], []) ∧
      ReadFrame [[0], [0, 0, 4], [1, 2, 3, 4]] = some ([], [[0, 0, 4], [1, 2, 3, 4]]) ∧
      ReadFrame [[0, 0, 0, 4], [1, 2]] = some ([1, 2, 0, 0], []) := by
  decide

/-- C10: for every payload, the 4-byte prefix emitted by `WriteFrame` encodes
`len(payload)` modulo `2 ^ 32` — no error is returned and no bound is
enforced — and for any payload of at least `2 ^ 32` bytes the decoded prefix
strictly understates the true length. -/
theorem c10_length_prefix_mod (P : List Nat) :
    WriteFrame P = uint32be (P.length % 2 ^ 32) ++ P ∧
      be32 (uint32be (P.length % 2 ^ 32)) = P.length % 2 ^ 32 ∧
      (2 ^ 32 ≤ P.length → P.length % 2 ^ 32 < P.length) := by
  refine ⟨rfl, ?_, ?_⟩
  · rw [be32_uint32be]
    omega
  · intro hbig
    omega

/-- C10 witness: at a concrete payload of `2 ^ 32 + 5` bytes the prefix value
understates the true length. -/
theorem c10_length_prefix_mod_witness :
    2 ^ 32 ≤ (List.replicate (2 ^ 32 + 5) (0 : Nat)).length ∧
      (List.replicate (2 ^ 32 + 5) (0 : Nat)).length % 2 ^ 32 <
        (List.replicate (2 ^ 32 + 5) (0 : Nat)).length :=
  ⟨by rw [List.length_replicate]; omega,
    (c10_length_prefix_mod (List.replicate (2 ^ 32 + 5) 0)).2.2
      (by rw [List.length_replicate]; omega)⟩

theorem parseSshString_sshString (s rest : List Nat) (h : s.length < 2 ^ 32) :
    parseSshString (sshString s ++ rest) = some (s, rest) := by
  unfold parseSshString sshString
  rw [List.append_assoc]
  have ht4 : (uint32be (s.length % 2 ^ 32) ++ (s ++ rest)).take 4 =
      uint32be (s.length % 2 ^ 32) := by
    rw [← uint32be_length (s.length % 2 ^ 32)]
    exact List.take_left _ _
  have hd4 : (uint32be (s.length % 2 ^ 32) ++ (s ++ rest)).drop 4 = s ++ rest := by
    rw [← uint32be_length (s.length % 2 ^ 32)]
    exact List.drop_left _ _
  have hlen : 4 ≤ (uint32be (s.length % 2 ^ 32) ++ (s ++ rest)).length := by
    rw [List.length_append, uint32be_length]
    omega
  have hL : be32 (uint32be (s.length % 2 ^ 32)) = s.length := by
    rw [be32_uint32be]
    omega
  simp only [hlen, if_pos, ht4, hd4, hL]
  have hle : s.length ≤ (s ++ rest).length := by
    rw [List.length_append]
    omega
  have hts : (s ++ rest).take s.length = s := List.take_left _ _
  have hds : (s ++ rest).drop s.length = rest := List.drop_left _ _
  simp [hle, hts, hds]

theorem unmarshalGreeting_marshalGreeting (n : List Nat) (h : n.length < 2 ^ 32) :
    unmarshalGreeting (marshalGreeting n) = some n := by
  unfold unmarshalGreeting marshalGreeting
  rw [← List.append_nil (sshString n), parseSshString_sshString n [] h]

theorem unmarshalChannelData_marshalChannelData (s : List Nat) (hs : List (List Nat))
    (h1 : s.length < 2 ^ 32) (h2 : (joinComma hs).length < 2 ^ 32) :
    unmarshalChannelData (marshalChannelData ⟨s, hs⟩) =
      some ⟨s, parseNameList (joinComma hs)⟩ := by
  unfold unmarshalChannelData marshalChannelData
  simp only
  rw [parseSshString_sshString s _ h1]
  simp only
  rw [← List.append_nil (sshString (joinComma hs)), parseSshString_sshString _ [] h2]
  simp

/-- C2: for an inbound channel-open of type `@duplex`, the accept loop emits
exactly the outcome of that channel's own handler (siblings unaffected); the
handler rejects with message `"failed to parse channel data"` when the
metadata fails to decode, rejects with `"empty service"` when the decoded
service string is empty, and otherwise accepts and pushes a channel carrying
exactly the decoded service and headers; in particular, metadata marshalled
for any non-empty service and any headers sequence (including the empty one)
is accepted with that service. -/
theorem c2_channel_open_validation (pre suf : List NewChanEv) (nc : NewChanEv)
    (hty : nc.chanType = "@duplex") :
    ssh_acceptChannels (pre ++ nc :: suf) =
      ssh_acceptChannels pre ++ (duplexOpenStep nc).toList ++ ssh_acceptChannels suf ∧
    (unmarshalChannelData nc.extra = none →
      duplexOpenStep nc = some (.rejected nc.chanId "failed to parse channel data")) ∧
    (∀ m, unmarshalChannelData nc.extra = some m → m.Service = [] →
      duplexOpenStep nc = some (.rejected nc.chanId "empty service")) ∧
    (∀ m, unmarshalChannelData nc.extra = some m → m.Service ≠ [] → nc.acceptOk = true →
      duplexOpenStep nc = some (.pushed nc.chanId m)) ∧
    (∀ s hs, s ≠ [] → s.length < 2 ^ 32 → (joinComma hs).length < 2 ^ 32 →
      nc.extra = marshalChannelData ⟨s, hs⟩ → nc.acceptOk = true →
      duplexOpenStep nc = some (.pushed nc.chanId ⟨s, parseNameList (joinComma hs)⟩)) := by
  refine ⟨?_, ?_, ?_, ?_, ?_⟩
  · unfold ssh_acceptChannels
    rw [List.filterMap_append, List.filterMap_cons]
    cases h : duplexOpenStep nc <;> simp [hty, h]
  · intro hnone
    unfold duplexOpenStep
    rw [hnone]
  · intro m hm hsvc
    unfold duplexOpenStep
    rw [hm]
    simp [hsvc]
  · intro m hm hsvc hacc
    unfold duplexOpenStep
    rw [hm]
    simp [hsvc, hacc]
  · intro s hs hsne h1 h2 hextra hacc
    unfold duplexOpenStep
    rw [hextra, unmarshalChannelData_marshalChannelData s hs h1 h2]
    simp [hsne, hacc]

/-- C2 witness: a concrete `@duplex` open carrying marshalled metadata with
service `[101]` and headers `[[118]]` is accepted and pushed with the decoded
metadata, and the accept loop around it decomposes accordingly. -/
theorem c2_channel_open_validation_witness :
    duplexOpenStep ⟨7, "@duplex", marshalChannelData ⟨[101], [[118]]⟩, true⟩ =
      some (.pushed 7 ⟨[101], parseNameList (joinComma [[118]])⟩) ∧
    ssh_acceptChannels ([] ++ ⟨7, "@duplex", marshalChannelData ⟨[101], [[118]]⟩, true⟩ :: []) =
      ssh_acceptChannels [] ++
        (duplexOpenStep ⟨7, "@duplex", marshalChannelData ⟨[101], [[118]]⟩, true⟩).toList ++
        ssh_acceptChannels [] :=
  ⟨(c2_channel_open_validation [] [] ⟨7, "@duplex", marshalChannelData ⟨[101], [[118]]⟩, true⟩
      rfl).2.2.2.2 [101] [[118]] (by decide) (by decide) (by decide) rfl rfl,
    (c2_channel_open_validation [] [] ⟨7, "@duplex", marshalChannelData ⟨[101], [[118]]⟩, true⟩
      rfl).1⟩

/-- C9: an inbound channel-open whose declared type is not `@duplex` gets no
handling and no reply of any kind — on its own it produces no outcome — and
the loop's processing of the surrounding events is exactly as if the event
were absent. -/
theorem c9_non_duplex_ignored (pre suf : List NewChanEv) (nc : NewChanEv)
    (hty : nc.chanType ≠ "@duplex") :
    ssh_acceptChannels [nc] = [] ∧
      ssh_acceptChannels (pre ++ nc :: suf) = ssh_acceptChannels (pre ++ suf) := by
  constructor
  · simp [ssh_acceptChannels, hty]
  · unfold ssh_acceptChannels
    rw [List.filterMap_append, List.filterMap_append, List.filterMap_cons]
    simp [hty]

/-- C9 witness: a `"session"`-typed open between two `@duplex` opens produces
no outcome and leaves the loop's other outcomes unchanged. -/
theorem c9_non_duplex_ignored_witness :
    ssh_acceptChannels [⟨2, "session", [], true⟩] = [] ∧
      ssh_acceptChannels ([⟨1, "@duplex", [], true⟩] ++ ⟨2, "session", [], true⟩ ::
          [⟨3, "@duplex", [7], false⟩]) =
        ssh_acceptChannels ([⟨1, "@duplex", [], true⟩] ++ [⟨3, "@duplex", [7], false⟩]) :=
  c9_non_duplex_ignored [⟨1, "@duplex", [], true⟩] [⟨3, "@duplex", [7], false⟩]
    ⟨2, "session", [], true⟩ (by decide)

/-- C3 (amended): when the greeting fails on an accepted connection (send
error or negative acknowledgment), `ssh_handleConn` returns — the deferred
close tears the connection down and no inbound channel is serviced — but the
registry entry made before the greeting remains: the Peer's registry still
maps the remote address to that connection. -/
theorem c3_greeting_failure_stays_registered (network addrStr user : String)
    (greetSendErr greetAck : Bool) (chans : List NewChanEv) (peer : PeerState)
    (hfail : greetSendErr = true ∨ greetAck = false) :
    (ssh_handleConn (.ok network addrStr user) greetSendErr greetAck chans peer).conns =
      (addrStr, ⟨network ++ "://" ++ addrStr, user⟩) :: peer.conns ∧
    (ssh_handleConn (.ok network addrStr user) greetSendErr greetAck chans peer).incoming =
      peer.incoming ∧
    List.lookup addrStr
      (ssh_handleConn (.ok network addrStr user) greetSendErr greetAck chans peer).conns =
      some ⟨network ++ "://" ++ addrStr, user⟩ := by
  unfold ssh_handleConn
  rcases hfail with h | h <;> subst h <;> simp [List.lookup]

/-- C3 witness: the amended behaviour at a concrete failed greeting. -/
theorem c3_greeting_failure_stays_registered_witness :
    (ssh_handleConn (.ok "tcp" "203.0.113.9:4000" "bob") false false [] ⟨[], []⟩).conns =
      ("203.0.113.9:4000", ⟨"tcp://203.0.113.9:4000", "bob"⟩) :: [] ∧
    (ssh_handleConn (.ok "tcp" "203.0.113.9:4000" "bob") false false [] ⟨[], []⟩).incoming =
      [] ∧
    List.lookup "203.0.113.9:4000"
      (ssh_handleConn (.ok "tcp" "203.0.113.9:4000" "bob") false false [] ⟨[], []⟩).conns =
      some ⟨"tcp://203.0.113.9:4000", "bob"⟩ :=
  c3_greeting_failure_stays_registered "tcp" "203.0.113.9:4000" "bob" false false [] ⟨[], []⟩
    (Or.inr rfl)

/-- C3 counterexample: after a greeting that fails (acknowledgment `false`)
on a freshly accepted connection, the Peer's registry does contain an entry
for that connection's remote address — refuting the claim that it contains
none. -/
theorem c3_registry_entry_counterexample :
    List.lookup "203.0.113.9:4000"
      (ssh_handleConn (.ok "tcp" "203.0.113.9:4000" "bob") false false [] ⟨[], []⟩).conns =
      some ⟨"tcp://203.0.113.9:4000", "bob"⟩ ∧
    (some (⟨"tcp://203.0.113.9:4000", "bob"⟩ : ConnEntry) ≠ none) := by
  constructor
  · simp [ssh_handleConn, List.lookup]
  · simp

/-- C5 (code_bug evaluation): two concurrent `@duplex` opens on one
connection, goroutine 0 carrying marshalled metadata with service `[97]` and
goroutine 1 with the distinct service `[98]`.  Under the legal interleaving
`[0, 1, 0, 0, 1, 1]` — both goroutines run `ssh.Unmarshal` into the shared
`meta` variable before either reads it back — both pushed channels carry
service `[98]`: goroutine 0's channel does not carry its own decoded
metadata, though its extra data decodes to service `[97]`.  Under the
run-to-completion schedule `[0, 0, 0, 1, 1, 1]` the pairing is correct, so
the mismatch is purely the shared variable's doing. -/
theorem c5_shared_meta_race :
    (acceptLoopRun [0, 1, 0, 0, 1, 1] twoOpensInit).queue =
      [(0, ⟨[98], []⟩), (1, ⟨[98], []⟩)] ∧
    unmarshalChannelData (marshalChannelData ⟨[97], []⟩) = some ⟨[97], []⟩ ∧
    unmarshalChannelData (marshalChannelData ⟨[98], []⟩) = some ⟨[98], []⟩ ∧
    (⟨[97], []⟩ : ssh_channelData) ≠ ⟨[98], []⟩ ∧
    (acceptLoopRun [0, 0, 0, 1, 1, 1] twoOpensInit).queue =
      [(0, ⟨[97], []⟩), (1, ⟨[98], []⟩)] := by
  decide

/-- C7: the server-side `PublicKeyCallback` grants permissions exactly when
the offered key's byte serialization equals the public half of the server's
own configured key byte for byte; any other key is refused with the error
`"unauthorized"`. -/
theorem c7_pinned_key_auth (serverPub offered : List Nat) :
    (publicKeyCallback serverPub offered = .permit ↔ offered = serverPub) ∧
    (offered ≠ serverPub → publicKeyCallback serverPub offered = .deny "unauthorized") := by
  unfold publicKeyCallback
  constructor
  · constructor
    · intro h
      by_contra hne
      simp [hne] at h
    · intro h
      simp [h]
  · intro h
    simp [h]

/-- C7 witness: the matching key is permitted; a differing key is denied. -/
theorem c7_pinned_key_auth_witness :
    (publicKeyCallback [1, 2] [1, 2] = .permit ↔ [1, 2] = [1, 2]) ∧
      publicKeyCallback [1, 2] [9] = .deny "unauthorized" :=
  ⟨(c7_pinned_key_auth [1, 2] [1, 2]).1, (c7_pinned_key_auth [1, 2] [9]).2 (by decide)⟩

theorem firstGreetingName_append_invalid (pre rest : List OobRequest)
    (hpre : ∀ r ∈ pre, validGreeting r = false) :
    firstGreetingName (pre ++ rest) = firstGreetingName rest := by
  induction pre with
  | nil => rfl
  | cons q qs ih =>
    have hq := hpre q (List.mem_cons_self q qs)
    have hqs : ∀ x ∈ qs, validGreeting x = false :=
      fun x hx => hpre x (List.mem_cons_of_mem q hx)
    rw [List.cons_append]
    unfold validGreeting at hq
    by_cases hty : q.reqType = "@duplex-greeting"
    · cases hm : unmarshalGreeting q.payload with
      | none =>
        simp only [firstGreetingName, if_pos hty, hm]
        exact ih hqs
      | some v =>
        rw [hty, hm] at hq
        simp at hq
    · simp only [firstGreetingName, if_neg hty]
      exact ih hqs

/-- C6: for every successful dial, the `Name` of the returned peer connection
is exactly the display name the accepting peer marshalled into its
`@duplex-greeting` (its `OptName`), however many non-greeting requests
precede it; and while no greeting has arrived the dial call has not returned
(no peer connection value exists). -/
theorem c6_dial_name_from_greeting (network addr : String) (name : List Nat)
    (reqId : Nat) (pre post : List OobRequest)
    (hname : name.length < 2 ^ 32)
    (hpre : ∀ r ∈ pre, validGreeting r = false) :
    newPeerConnection_ssh network addr (pre ++ serverGreetingRequest reqId name :: post) =
      some (network ++ "://" ++ addr, name) ∧
    newPeerConnection_ssh network addr pre = none := by
  constructor
  · unfold newPeerConnection_ssh
    rw [firstGreetingName_append_invalid pre _ hpre]
    unfold firstGreetingName serverGreetingRequest
    simp [unmarshalGreeting_marshalGreeting name hname]
  · unfold newPeerConnection_ssh
    have h := firstGreetingName_append_invalid pre [] hpre
    rw [List.append_nil] at h
    rw [h]
    rfl

/-- C6 witness: a dial that sees one keepalive and then the greeting for the
name `[97, 108]` returns exactly that name; on the keepalive alone it has not
returned. -/
theorem c6_dial_name_from_greeting_witness :
    newPeerConnection_ssh "tcp" "198.51.100.7:9000"
        ([⟨1, "keepalive", []⟩] ++ serverGreetingRequest 2 [97, 108] :: []) =
      some ("tcp" ++ "://" ++ "198.51.100.7:9000", [97, 108]) ∧
    newPeerConnection_ssh "tcp" "198.51.100.7:9000" [⟨1, "keepalive", []⟩] = none :=
  c6_dial_name_from_greeting "tcp" "198.51.100.7:9000" [97, 108] 2
    [⟨1, "keepalive", []⟩] [] (by decide) (by decide)

/-- C8: a request whose name is not `@duplex-greeting`, arriving at a point
the request loop reaches, is replied `false`, and handling it does not
terminate the loop: the replies after it are exactly those the loop would
produce for the remaining requests in the same state. -/
theorem c8_non_greeting_negative_reply (pre suf : List OobRequest) (r : OobRequest)
    (g : Bool) (hend : loopReachesEnd pre g = true)
    (hty : r.reqType ≠ "@duplex-greeting") :
    clientReqLoop (pre ++ r :: suf) g =
      clientReqLoop pre g ++ (r.reqId, false) :: clientReqLoop suf (greetedAfter pre g) := by
  induction pre generalizing g with
  | nil =>
    simp only [List.nil_append, greetedAfter]
    simp only [clientReqLoop, if_neg hty]
    rfl
  | cons q qs ih =>
    rw [List.cons_append]
    simp only [clientReqLoop, loopReachesEnd, greetedAfter] at hend ⊢
    by_cases hq : q.reqType = "@duplex-greeting"
    · cases hm : unmarshalGreeting q.payload with
      | none =>
        simp only [if_pos hq, hm] at hend ⊢
        exact ih g hend
      | some v =>
        cases g with
        | false =>
          simp only [if_pos hq, hm, Bool.false_eq_true, if_false] at hend ⊢
          rw [List.cons_append]
          exact congrArg (List.cons (q.reqId, true)) (ih true hend)
        | true =>
          simp only [if_pos hq, hm, if_pos rfl] at hend
          exact absurd hend (by simp)
    · simp only [if_neg hq] at hend ⊢
      rw [List.cons_append]
      exact congrArg (List.cons (q.reqId, false)) (ih g hend)

/-- C8 witness: a `"ping"` request between two keepalives is replied `false`
and the loop goes on to the rest. -/
theorem c8_non_greeting_negative_reply_witness :
    clientReqLoop ([⟨1, "keepalive", []⟩] ++ ⟨2, "ping", [5]⟩ :: [⟨3, "keepalive", []⟩])
        false =
      clientReqLoop [⟨1, "keepalive", []⟩] false ++
        (2, false) :: clientReqLoop [⟨3, "keepalive", []⟩]
          (greetedAfter [⟨1, "keepalive", []⟩] false) :=
  c8_non_greeting_negative_reply [⟨1, "keepalive", []⟩] [⟨3, "keepalive", []⟩]
    ⟨2, "ping", [5]⟩ false (by decide) (by decide)
